import Mathlib

/-!
Verification of the metric-normalization and growth-calculation core of the
stock-analysis dashboard (src/app.py) against its specification.

The quarterly statement is a pandas DataFrame: rows keyed by line-item name,
columns keyed by period-end date, newest-first.  We embed it shallowly as a
list of column dates plus an association list of rows.  All numeric values are
rationals (the Python floats idealized); machine rounding is modelled where the
code rounds explicitly (DataFrame.round).
-/

set_option maxRecDepth 4000

namespace StockApp

/-- A period-end date of a quarterly statement column. -/
structure QDate where
  year : Nat
  month : Nat
  day : Nat
  deriving DecidableEq

/-- A quarterly financial statement (the pandas DataFrame `stock.quarterly_financials`):
`cols` are the period-end dates in upstream order (newest first), `rows` maps each
line-item name to its list of values, one per column. -/
structure Statement where
  cols : List QDate
  rows : List (String × List ℚ)
  deriving DecidableEq

/-- Well-formed DataFrame: every row holds one value per column. -/
def Statement.WF (s : Statement) : Prop :=
  ∀ r ∈ s.rows, r.2.length = s.cols.length

/-- pandas `DataFrame.empty`: true iff any axis has length 0. -/
def Statement.isEmpty (s : Statement) : Bool :=
  s.cols.isEmpty || s.rows.isEmpty

/-- Membership test `name in financials.index`. -/
def Statement.hasRow (s : Statement) (name : String) : Bool :=
  s.rows.any (fun r => r.1 == name)

/-- Row lookup `financials.loc[name]` (first match, as for a unique index);
empty when the row is absent (the code only calls this after a membership test). -/
def Statement.getRow (s : Statement) (name : String) : List ℚ :=
  match s.rows.find? (fun r => r.1 == name) with
  | some r => r.2
  | none => []

/-- `quarters = financials.columns[:10]` (line 68). -/
def Statement.quarters (s : Statement) : List QDate :=
  s.cols.take 10

/-- `financials.loc[name, quarters].values[:10]`: the row restricted to the first
10 columns.  Since `quarters` is the first-10 prefix of the columns, this is the
first-10 prefix of the row values. -/
def Statement.rowVals (s : Statement) (name : String) : List ℚ :=
  (s.getRow name).take 10

/-- The scalar company info consumed from `stock.info`. -/
structure Info where
  longName : Option String
  sharesOutstanding : Option ℚ
  deriving DecidableEq

/-- Python truthiness of `info.get('sharesOutstanding')`: falsy iff absent or zero. -/
def sharesTruthy (info : Info) : Bool :=
  match info.sharesOutstanding with
  | some q => q != 0
  | none => false

/-- `financial_data['Sales']` (line 75): Total Revenue over the selected columns,
divided by 10,000,000 (conversion to crores). -/
def salesSeries (fin : Statement) : List ℚ :=
  (fin.rowVals "Total Revenue").map (fun v => v / 10000000)

/-- `financial_data['Operating Profit']` (lines 80-89): Operating Income scaled if
that row exists, else Revenue minus Total Operating Expenses scaled if both rows
exist, else a literal list of ten zeros. -/
def operatingProfitSeries (fin : Statement) : List ℚ :=
  if fin.hasRow "Operating Income" then
    (fin.rowVals "Operating Income").map (fun v => v / 10000000)
  else if fin.hasRow "Total Revenue" && fin.hasRow "Total Operating Expenses" then
    List.zipWith (fun r o => (r - o) / 10000000)
      (fin.rowVals "Total Revenue") (fin.rowVals "Total Operating Expenses")
  else
    List.replicate 10 0

/-- `financial_data['OPM%']` (lines 92-95): per-quarter operating margin from the
already-derived Operating Profit and Sales lists, zipped (zip truncates to the
shorter list, as the Python list comprehension over `zip` does). -/
def opmSeries (fin : Statement) : List ℚ :=
  List.zipWith (fun op sales => if sales ≠ 0 then op / sales * 100 else 0)
    (operatingProfitSeries fin) (salesSeries fin)

/-- `financial_data['Net Profit']` (lines 98-101): Net Income scaled if present,
else ten zeros. -/
def netProfitSeries (fin : Statement) : List ℚ :=
  if fin.hasRow "Net Income" then
    (fin.rowVals "Net Income").map (fun v => v / 10000000)
  else
    List.replicate 10 0

/-- `financial_data['EPS']` (lines 104-116): raw Basic EPS if that row exists;
else, when `sharesOutstanding` is truthy (the dictionary always contains
the Net Profit key by this point, so that conjunct is vacuous), unscale Net
Profit and divide by the share count; else ten zeros. -/
def epsSeries (info : Info) (fin : Statement) : List ℚ :=
  if fin.hasRow "Basic EPS" then
    fin.rowVals "Basic EPS"
  else
    match info.sharesOutstanding with
    | some sh =>
        if sh ≠ 0 then (netProfitSeries fin).map (fun n => n * 10000000 / sh)
        else List.replicate 10 0
    | none => List.replicate 10 0

/-- `q.strftime('%Y-Q%q')` on a pandas Timestamp (line 119).  `%Y` renders the
year; `%q` is a pandas Period-only directive, not a datetime/Timestamp strftime
directive, so CPython hands it to the C library and glibc copies the unknown
conversion to the output verbatim: the label ends in the literal characters
percent-q rather than a quarter number. -/
def quarterLabel (d : QDate) : String :=
  toString d.year ++ "-Q%q"

/-- `quarter_names = [q.strftime('%Y-Q%q') for q in quarters]` (line 119). -/
def quarterNames (fin : Statement) : List String :=
  fin.quarters.map quarterLabel

/-- The normalized table (the DataFrame built at line 122): an index of quarter
labels and the five derived columns. -/
structure Frame where
  quarters : List String
  sales : List ℚ
  operatingProfit : List ℚ
  opm : List ℚ
  netProfit : List ℚ
  eps : List ℚ
  deriving DecidableEq

/-- `pd.DataFrame(financial_data, index=quarter_names)`: every column must have
exactly one value per index entry, otherwise pandas raises a ValueError (caught
by the surrounding handler). -/
def mkFrame (names : List String) (sales op opm netp eps : List ℚ) : Except String Frame :=
  if sales.length = names.length ∧ op.length = names.length ∧ opm.length = names.length ∧
      netp.length = names.length ∧ eps.length = names.length then
    Except.ok ⟨names, sales, op, opm, netp, eps⟩
  else
    Except.error "Length of values does not match length of index"

/-- `df.iloc[::-1]` (line 126): reverse the row order, index and all columns. -/
def Frame.reverse (f : Frame) : Frame :=
  ⟨f.quarters.reverse, f.sales.reverse, f.operatingProfit.reverse,
   f.opm.reverse, f.netProfit.reverse, f.eps.reverse⟩

/-- Error message returned when the statement is empty (line 65). -/
def noDataMsg : String := "No quarterly financial data available for this stock."

/-- Error message returned when the Total Revenue row is absent (line 77). -/
def missingSalesMsg : String := "Sales data not available for this stock."

/-- `fetch_stock_data` (lines 51-131), with the upstream fetch results (`info`
and the quarterly financials) as explicit inputs.  Mirrors the Python control
flow: empty statement and missing Sales return early with their messages; any
exception inside the try block (here: the DataFrame length mismatch) is caught
and wrapped as an "Error fetching data: ..." message; on success the reversed
(oldest-first) frame is returned with the company display name. -/
def fetch_stock_data (symbol : String) (info : Info) (fin : Statement) :
    Option Frame × String :=
  if fin.isEmpty then
    (none, noDataMsg)
  else if fin.hasRow "Total Revenue" then
    match mkFrame (quarterNames fin) (salesSeries fin) (operatingProfitSeries fin)
        (opmSeries fin) (netProfitSeries fin) (epsSeries info fin) with
    | Except.ok f => (some f.reverse, info.longName.getD symbol)
    | Except.error e => (none, "Error fetching data: " ++ e)
  else
    (none, missingSalesMsg)

/-- A value of the growth table: a finite number, or one of the non-finite
float results (NaN from the leading diff position or a 0/0, signed infinity
from division by a zero baseline). -/
inductive GVal where
  | undef : GVal
  | posInf : GVal
  | negInf : GVal
  | val : ℚ → GVal
  deriving DecidableEq

/-- Whether a growth value is one of the non-finite sentinels. -/
def GVal.isSentinel : GVal → Bool
  | GVal.val _ => false
  | _ => true

/-- One step of `Series.pct_change() * 100` under float semantics: on a zero
baseline the float quotient is +inf, -inf or NaN according to the sign of the
numerator; otherwise the exact value `(cur / prev - 1) * 100`. -/
def pctStep (prev cur : ℚ) : GVal :=
  if prev = 0 then
    if 0 < cur then GVal.posInf else if cur < 0 then GVal.negInf else GVal.undef
  else
    GVal.val ((cur / prev - 1) * 100)

/-- `financial_data[column].pct_change() * 100` (line 244): NaN at position 0,
then one `pctStep` per adjacent pair. -/
def pctChange100 : List ℚ → List GVal
  | [] => []
  | x :: xs => GVal.undef :: List.zipWith (fun cur prev => pctStep prev cur) xs (x :: xs)

/-- `financial_data[column].diff()` (line 246): NaN at position 0, then the
difference of each adjacent pair. -/
def diffSeries : List ℚ → List GVal
  | [] => []
  | x :: xs => GVal.undef :: List.zipWith (fun cur prev => GVal.val (cur - prev)) xs (x :: xs)

/-- numpy rounding of `x` to an integer: round half to even.  Written with
integer arithmetic on the reduced numerator and denominator so that it can be
evaluated: `f` is the floor of `x` (floor division, denominator positive), and
`t` has the sign of `x - (f + 1/2)`. -/
def roundHalfEven (x : ℚ) : ℤ :=
  let f : ℤ := x.num.fdiv x.den
  let t : ℤ := 2 * x.num - (2 * f + 1) * (x.den : ℤ)
  if t < 0 then f
  else if 0 < t then f + 1
  else if f % 2 = 0 then f else f + 1

/-- `DataFrame.round(2)` on a finite entry: round half to even at two decimals. -/
def round2 (q : ℚ) : ℚ :=
  mkRat (roundHalfEven (q * 100)) 100

/-- `DataFrame.round(2)` on one growth entry: NaN and infinities are unchanged. -/
def GVal.round2 : GVal → GVal
  | GVal.val q => GVal.val (StockApp.round2 q)
  | g => g

/-- The growth table produced by `calculate_growth_metrics`. -/
structure GrowthFrame where
  quarters : List String
  salesGrowth : List GVal
  operatingProfitGrowth : List GVal
  opmChange : List GVal
  netProfitGrowth : List GVal
  epsGrowth : List GVal
  deriving DecidableEq

/-- `calculate_growth_metrics` (lines 238-251): quarter-over-quarter percentage
change for Sales, Operating Profit, Net Profit and EPS, absolute difference for
OPM%, everything rounded to two decimals, index unchanged. -/
def calculate_growth_metrics (f : Frame) : GrowthFrame :=
  ⟨f.quarters,
   (pctChange100 f.sales).map GVal.round2,
   (pctChange100 f.operatingProfit).map GVal.round2,
   (diffSeries f.opm).map GVal.round2,
   (pctChange100 f.netProfit).map GVal.round2,
   (pctChange100 f.eps).map GVal.round2⟩

/-! Concrete fixtures used by the closed-form checks below. -/

/-- A sample period-end date (fourth calendar quarter). -/
def d2023q4 : QDate := ⟨2023, 12, 31⟩

/-- Company info with no display name and no share count. -/
def infoNone : Info := ⟨none, none⟩

/-- Company info with a display name only. -/
def infoName : Info := ⟨some "Reliance Industries", none⟩

/-- Company info with a negative share count (truthy in Python, not positive). -/
def infoNeg : Info := ⟨none, some (-1)⟩

/-- Company info with a positive share count. -/
def infoPos : Info := ⟨none, some 2⟩

/-- One column, only a Total Revenue row: every optional row falls back. -/
def finBare : Statement := ⟨[d2023q4], [("Total Revenue", [50000000])]⟩

/-- One column with Operating Income, Total Revenue and Total Operating Expenses
all present, with distinguishable values. -/
def finPrec : Statement :=
  ⟨[d2023q4],
   [("Total Revenue", [100000000]), ("Operating Income", [30000000]),
    ("Total Operating Expenses", [60000000])]⟩

/-- One column with Total Revenue and Net Income but no Basic EPS row. -/
def finEPS : Statement :=
  ⟨[d2023q4], [("Total Revenue", [10000000]), ("Net Income", [30000000])]⟩

/-- One column with a Basic EPS row. -/
def finBE : Statement :=
  ⟨[d2023q4], [("Total Revenue", [10000000]), ("Basic EPS", [7])]⟩

/-- One column and no rows at all (pandas-empty despite having a column). -/
def finNoRows : Statement := ⟨[d2023q4], []⟩

/-- One nonempty row but no Total Revenue. -/
def finNoRevenue : Statement := ⟨[d2023q4], [("Net Income", [5])]⟩

/-- No columns at all. -/
def finNoCols : Statement := ⟨[], [("Total Revenue", [])]⟩

/-- One column with every consumed row present. -/
def finFull : Statement :=
  ⟨[d2023q4],
   [("Total Revenue", [100000000]), ("Operating Income", [30000000]),
    ("Total Operating Expenses", [60000000]), ("Net Income", [20000000]),
    ("Basic EPS", [7])]⟩

/-- The frame `fetch_stock_data` produces from `finFull`. -/
def frFull : Frame := ⟨["2023-Q%q"], [10], [3], [30], [2], [7]⟩

/-- A three-quarter frame carrying the worked examples of the specification. -/
def exFrame : Frame :=
  ⟨["a", "b", "c"], [100, 150, 120], [10, 5, 6], [10, 25/2, 9], [20, 30, 15], [2, 4, 1]⟩

/-- A two-quarter frame whose Sales start at a zero baseline. -/
def exFrameZero : Frame := ⟨["a", "b"], [0, 100], [0, 0], [0, 0], [0, 0], [0, 0]⟩

/-! Theorems. -/

/-- C6: for every statement containing no quarterly columns at all, the fetch
fails with the distinguished no-data message (pandas `.empty` is true when the
column axis has length 0) and returns no series. -/
theorem c6_no_columns (symbol : String) (info : Info) (fin : Statement)
    (h : fin.cols = []) :
    fetch_stock_data symbol info fin = (none, noDataMsg) := by
  have he : fin.isEmpty = true := by
    simp [Statement.isEmpty, h]
  simp [fetch_stock_data, he]

/-- Witness for C6 at a concrete column-less statement. -/
theorem c6_witness :
    fetch_stock_data "RELIANCE.NS" infoNone finNoCols = (none, noDataMsg) :=
  c6_no_columns "RELIANCE.NS" infoNone finNoCols rfl

/-- C5 counterexample: a statement with a quarterly column but no rows at all has
no Total Revenue row, yet the fetch fails with the no-data message (the pandas
emptiness test fires first), not the missing-sales message the claim requires. -/
theorem c5_counterexample :
    finNoRows.hasRow "Total Revenue" = false ∧
    fetch_stock_data "X" infoNone finNoRows = (none, noDataMsg) ∧
    noDataMsg ≠ missingSalesMsg := by
  refine ⟨rfl, ?_, by decide⟩
  with_unfolding_all decide

/-- C5 (amended): for every statement that is not pandas-empty (at least one
column and at least one row) and whose Total Revenue row is absent, the fetch
fails with the distinguished missing-sales message, regardless of which other
rows are present. -/
theorem c5_missing_revenue (symbol : String) (info : Info) (fin : Statement)
    (hne : fin.isEmpty = false) (htr : fin.hasRow "Total Revenue" = false) :
    fetch_stock_data symbol info fin = (none, missingSalesMsg) := by
  simp [fetch_stock_data, hne, htr]

/-- Witness for C5 at a concrete nonempty statement lacking Total Revenue. -/
theorem c5_witness :
    fetch_stock_data "TCS.NS" infoNone finNoRevenue = (none, missingSalesMsg) :=
  c5_missing_revenue "TCS.NS" infoNone finNoRevenue (by decide) (by decide)

/-- C9 (code bug): the quarter label built for the period-end date 2023-12-31 is
the literal string "2023-Q%q" — `Timestamp.strftime` has no `%q` directive, so
the label never carries the calendar quarter number the claim requires. -/
theorem c9_quarter_label_literal :
    quarterLabel d2023q4 = "2023-Q%q" ∧
    quarterLabel d2023q4 ≠ "2023-Q1" ∧
    quarterLabel d2023q4 ≠ "2023-Q2" ∧
    quarterLabel d2023q4 ≠ "2023-Q3" ∧
    quarterLabel d2023q4 ≠ "2023-Q4" := by
  refine ⟨?_, ?_, ?_, ?_, ?_⟩ <;> decide

/-- C3: Operating Profit derivation precedence, per selected column list: an
Operating Income row is used (scaled) whenever present — even when Total Revenue
and Total Operating Expenses are also present, since the second branch is only
reached on its absence; otherwise Revenue minus Operating Expenses (scaled) when
both rows exist; otherwise the fixed zero default. -/
theorem c3_operating_profit_precedence (fin : Statement) :
    (fin.hasRow "Operating Income" = true →
      operatingProfitSeries fin =
        (fin.rowVals "Operating Income").map (fun v => v / 10000000)) ∧
    (fin.hasRow "Operating Income" = false →
      fin.hasRow "Total Revenue" = true → fin.hasRow "Total Operating Expenses" = true →
      operatingProfitSeries fin =
        List.zipWith (fun r o => (r - o) / 10000000)
          (fin.rowVals "Total Revenue") (fin.rowVals "Total Operating Expenses")) ∧
    (fin.hasRow "Operating Income" = false →
      (fin.hasRow "Total Revenue" && fin.hasRow "Total Operating Expenses") = false →
      operatingProfitSeries fin = List.replicate 10 0) := by
  refine ⟨fun h1 => ?_, fun h1 h2 h3 => ?_, fun h1 h2 => ?_⟩
  · simp [operatingProfitSeries, h1]
  · simp [operatingProfitSeries, h1, h2, h3]
  · simp [operatingProfitSeries, h1, h2]

/-- Witness for C3: with all three source rows present Operating Income wins
(3 crores, not the 4 crores revenue-minus-expenses would give), and with only
Total Revenue present the zero default of length 10 is produced. -/
theorem c3_witness :
    operatingProfitSeries finPrec = [3] ∧
    operatingProfitSeries finBare = List.replicate 10 0 := by
  constructor
  · rw [(c3_operating_profit_precedence finPrec).1 (by decide)]
    simp +decide [finPrec, Statement.rowVals, Statement.getRow]
    norm_num
  · exact (c3_operating_profit_precedence finBare).2.2 (by decide) (by decide)

/-- C4 counterexample: with Basic EPS absent and sharesOutstanding = -1 — known
but NOT positive — the code still applies the fallback formula (the Python guard
is truthiness, not positivity), yielding a nonzero EPS where the claim requires
0. -/
theorem c4_counterexample :
    finEPS.hasRow "Basic EPS" = false ∧
    infoNeg.sharesOutstanding = some (-1) ∧
    ¬ (0 : ℚ) < -1 ∧
    epsSeries infoNeg finEPS = [-30000000] := by
  refine ⟨by decide, rfl, by norm_num, ?_⟩
  simp +decide [epsSeries, infoNeg, finEPS, netProfitSeries,
    Statement.hasRow, Statement.rowVals, Statement.getRow]
  norm_num

/-- C4 (amended): EPS derivation per selected column list: a Basic EPS row is
used raw and unscaled; otherwise, when shares-outstanding is known and NONZERO
(Python truthiness — the code does not test positivity), EPS is NetProfit
unscaled back to currency divided by the share count; otherwise the zero
default. -/
theorem c4_eps_derivation (info : Info) (fin : Statement) :
    (fin.hasRow "Basic EPS" = true → epsSeries info fin = fin.rowVals "Basic EPS") ∧
    (fin.hasRow "Basic EPS" = false → ∀ sh : ℚ, info.sharesOutstanding = some sh → sh ≠ 0 →
      epsSeries info fin = (netProfitSeries fin).map (fun n => n * 10000000 / sh)) ∧
    (fin.hasRow "Basic EPS" = false → sharesTruthy info = false →
      epsSeries info fin = List.replicate 10 0) := by
  refine ⟨fun h1 => ?_, fun h1 sh h2 h3 => ?_, fun h1 h2 => ?_⟩
  · simp [epsSeries, h1]
  · simp [epsSeries, h1, h2, h3]
  · cases hso : info.sharesOutstanding with
    | none => simp [epsSeries, h1, hso]
    | some q =>
      have hq : q = 0 := by
        unfold sharesTruthy at h2
        rw [hso] at h2
        simpa using h2
      simp [epsSeries, h1, hso, hq]

/-- Witness for C4: the three derivation branches at concrete inputs — raw Basic
EPS, the share-count fallback with 2 shares, and the zero default. -/
theorem c4_witness :
    epsSeries infoNone finBE = [7] ∧
    epsSeries infoPos finEPS = [15000000] ∧
    epsSeries infoNone finEPS = List.replicate 10 0 := by
  refine ⟨?_, ?_, ?_⟩
  · rw [(c4_eps_derivation infoNone finBE).1 (by decide)]
    simp +decide [finBE, Statement.rowVals, Statement.getRow]
  · rw [(c4_eps_derivation infoPos finEPS).2.1 (by decide) 2 rfl (by norm_num)]
    simp +decide [finEPS, netProfitSeries, Statement.hasRow, Statement.rowVals,
      Statement.getRow]
    norm_num
  · exact (c4_eps_derivation infoNone finEPS).2.2 (by decide) (by decide)

/-- C10: fetch_stock_data is total and returns a pair that is either a series
with the company display name, or `none` with one of the descriptive error
strings (no-data, missing sales, or a wrapped "Error fetching data: ..."
message); success is recognizable from the first component alone. -/
theorem c10_fetch_total (symbol : String) (info : Info) (fin : Statement) :
    (∃ f, fetch_stock_data symbol info fin = (some f, info.longName.getD symbol)) ∨
    ((fetch_stock_data symbol info fin).1 = none ∧
      ((fetch_stock_data symbol info fin).2 = noDataMsg ∨
       (fetch_stock_data symbol info fin).2 = missingSalesMsg ∨
       ∃ e, (fetch_stock_data symbol info fin).2 = "Error fetching data: " ++ e)) := by
  unfold fetch_stock_data
  by_cases he : fin.isEmpty = true
  · simp [he]
  · simp only [Bool.not_eq_true] at he
    by_cases htr : fin.hasRow "Total Revenue" = true
    · simp only [he, htr, Bool.false_eq_true, if_false, if_true]
      cases hm : mkFrame (quarterNames fin) (salesSeries fin) (operatingProfitSeries fin)
          (opmSeries fin) (netProfitSeries fin) (epsSeries info fin) with
      | ok f => exact Or.inl ⟨f.reverse, rfl⟩
      | error e => exact Or.inr ⟨rfl, Or.inr (Or.inr ⟨e, rfl⟩)⟩
    · simp only [Bool.not_eq_true] at htr
      simp [he, htr]

/-- getD of a reversed list at an in-bounds index. -/
theorem getD_reverse {α : Type} (l : List α) (d : α) (i : ℕ) (hi : i < l.length) :
    l.reverse.getD i d = l.getD (l.length - 1 - i) d := by
  rw [List.getD_eq_getElem?_getD, List.getElem?_reverse hi, List.getD_eq_getElem?_getD]

/-- getD of a zipWith at an index in bounds of both lists. -/
theorem getD_zipWith {α : Type} (g : α → α → α) (l₁ l₂ : List α) (d : α) (j : ℕ)
    (h1 : j < l₁.length) (h2 : j < l₂.length) :
    (List.zipWith g l₁ l₂).getD j d = g (l₁.getD j d) (l₂.getD j d) := by
  simp only [List.getD_eq_getElem?_getD, List.getElem?_zipWith,
    List.getElem?_eq_getElem h1, List.getElem?_eq_getElem h2, Option.getD_some]

/-- Inversion of a successful fetch: the returned frame is the reversed raw
table, every raw column matches the index length, and the second component is
the company display name. -/
theorem fetch_stock_data_some (symbol : String) (info : Info) (fin : Statement)
    (f : Frame) (s : String)
    (h : fetch_stock_data symbol info fin = (some f, s)) :
    f = Frame.reverse ⟨quarterNames fin, salesSeries fin, operatingProfitSeries fin,
        opmSeries fin, netProfitSeries fin, epsSeries info fin⟩ ∧
    (salesSeries fin).length = (quarterNames fin).length ∧
    (operatingProfitSeries fin).length = (quarterNames fin).length ∧
    (opmSeries fin).length = (quarterNames fin).length ∧
    (netProfitSeries fin).length = (quarterNames fin).length ∧
    (epsSeries info fin).length = (quarterNames fin).length ∧
    s = info.longName.getD symbol := by
  unfold fetch_stock_data at h
  by_cases he : fin.isEmpty = true
  · rw [if_pos he] at h
    simp at h
  · rw [if_neg he] at h
    by_cases htr : fin.hasRow "Total Revenue" = true
    · rw [if_pos htr] at h
      unfold mkFrame at h
      by_cases hlen : (salesSeries fin).length = (quarterNames fin).length ∧
          (operatingProfitSeries fin).length = (quarterNames fin).length ∧
          (opmSeries fin).length = (quarterNames fin).length ∧
          (netProfitSeries fin).length = (quarterNames fin).length ∧
          (epsSeries info fin).length = (quarterNames fin).length
      · rw [if_pos hlen] at h
        simp only [Prod.mk.injEq, Option.some.injEq] at h
        exact ⟨h.1.symm, hlen.1, hlen.2.1, hlen.2.2.1, hlen.2.2.2.1, hlen.2.2.2.2, h.2.symm⟩
      · rw [if_neg hlen] at h
        simp at h
    · rw [if_neg htr] at h
      simp at h

/-- C2: in every successfully produced series, the OPM% entry at every index is
the margin formula over the already-derived, already-scaled Operating Profit and
Sales entries of the same index: (OP/Sales)*100 when Sales is nonzero, 0 when
Sales is zero. -/
theorem c2_opm_formula (symbol : String) (info : Info) (fin : Statement)
    (f : Frame) (s : String)
    (h : fetch_stock_data symbol info fin = (some f, s))
    (i : ℕ) (hi : i < f.quarters.length) :
    (f.sales.getD i 0 ≠ 0 →
      f.opm.getD i 0 = f.operatingProfit.getD i 0 / f.sales.getD i 0 * 100) ∧
    (f.sales.getD i 0 = 0 → f.opm.getD i 0 = 0) := by
  obtain ⟨hf, hsl, hol, hml, -, -, -⟩ := fetch_stock_data_some symbol info fin f s h
  subst hf
  simp only [Frame.reverse] at hi ⊢
  rw [List.length_reverse] at hi
  have hio : i < (opmSeries fin).length := by rw [hml]; exact hi
  have his : i < (salesSeries fin).length := by rw [hsl]; exact hi
  have hiop : i < (operatingProfitSeries fin).length := by rw [hol]; exact hi
  rw [getD_reverse _ _ _ hio, getD_reverse _ _ _ his, getD_reverse _ _ _ hiop,
    hml, hol, hsl]
  have hj1 : (quarterNames fin).length - 1 - i < (operatingProfitSeries fin).length := by
    rw [hol]; omega
  have hj2 : (quarterNames fin).length - 1 - i < (salesSeries fin).length := by
    rw [hsl]; omega
  rw [show opmSeries fin = List.zipWith
      (fun op sales => if sales ≠ 0 then op / sales * 100 else 0)
      (operatingProfitSeries fin) (salesSeries fin) from rfl,
    getD_zipWith _ _ _ _ _ hj1 hj2]
  constructor
  · intro hne
    simp only [if_pos hne]
  · intro hz
    simp only [hz, ne_eq, not_true_eq_false, if_false]

/-- Witness for C2 at a successful one-column fetch: OPM is 30 because Operating
Profit is 3 and Sales is 10. -/
theorem c2_witness :
    frFull.sales.getD 0 0 ≠ 0 ∧
    frFull.opm.getD 0 0 = frFull.operatingProfit.getD 0 0 / frFull.sales.getD 0 0 * 100 := by
  have hfetch : fetch_stock_data "RELIANCE.NS" infoName finFull =
      (some frFull, "Reliance Industries") := by
    simp +decide [fetch_stock_data, mkFrame, Frame.reverse, finFull, infoName, frFull,
      quarterNames, quarterLabel, Statement.quarters, salesSeries, operatingProfitSeries,
      opmSeries, netProfitSeries, epsSeries, Statement.hasRow, Statement.rowVals,
      Statement.getRow, Statement.isEmpty, d2023q4]
    norm_num
  have hs : frFull.sales.getD 0 0 ≠ 0 := by
    simp +decide [frFull]
  exact ⟨hs, (c2_opm_formula "RELIANCE.NS" infoName finFull frFull "Reliance Industries"
    hfetch 0 (by simp +decide [frFull])).1 hs⟩

/-- A present row, restricted to the selected columns, has one value per
selected column. -/
theorem rowVals_length (s : Statement) (name : String) (hwf : s.WF)
    (h : s.hasRow name = true) :
    (s.rowVals name).length = min 10 s.cols.length := by
  unfold Statement.hasRow at h
  obtain ⟨r, hr, hp⟩ := List.any_eq_true.mp h
  have hsome : (s.rows.find? (fun r => r.1 == name)).isSome :=
    List.find?_isSome.mpr ⟨r, hr, hp⟩
  unfold Statement.rowVals Statement.getRow
  cases hf : s.rows.find? (fun r => r.1 == name) with
  | none => rw [hf] at hsome; simp at hsome
  | some r2 =>
    simp only [List.length_take]
    rw [hwf r2 (List.mem_of_find?_eq_some hf)]

/-- The quarter-label index always has one entry per selected column. -/
theorem quarterNames_length (fin : Statement) :
    (quarterNames fin).length = min 10 fin.cols.length := by
  simp [quarterNames, Statement.quarters]

/-- C1 counterexample: one quarterly column with only the mandatory Total
Revenue row.  The zero defaults have fixed length 10, the DataFrame constructor
raises the length mismatch, and the fetch returns no series at all instead of
the claimed series of length min(10, 1) = 1. -/
theorem c1_counterexample :
    finBare.cols.length = 1 ∧
    finBare.hasRow "Total Revenue" = true ∧
    fetch_stock_data "X" infoNone finBare =
      (none, "Error fetching data: Length of values does not match length of index") := by
  refine ⟨rfl, by decide, ?_⟩
  simp +decide [fetch_stock_data, mkFrame, finBare, infoNone, quarterNames, quarterLabel,
    Statement.quarters, salesSeries, operatingProfitSeries, opmSeries, netProfitSeries,
    epsSeries, Statement.hasRow, Statement.rowVals, Statement.getRow, Statement.isEmpty,
    d2023q4]

/-- C1 (amended): for every well-formed statement with at least one quarterly
column and a Total Revenue row, and such that no fixed-length-10 zero default is
taken when fewer than 10 columns are available (that is: 10 or more columns, or
an Operating-Profit source, a Net Income row and an EPS source all present), the
fetch returns a series whose length is min(10, available columns), ordered
oldest-first (the reversal of the newest-first upstream order).  When fewer than
10 columns are available and a zero default does apply, the fetch instead fails
with a wrapped length-mismatch error — see the counterexample. -/
theorem c1_series_length_oldest_first (symbol : String) (info : Info) (fin : Statement)
    (hwf : fin.WF) (hc : fin.cols ≠ [])
    (htr : fin.hasRow "Total Revenue" = true)
    (hfb : 10 ≤ fin.cols.length ∨
      ((fin.hasRow "Operating Income" = true ∨
        fin.hasRow "Total Operating Expenses" = true) ∧
       fin.hasRow "Net Income" = true ∧
       (fin.hasRow "Basic EPS" = true ∨ sharesTruthy info = true))) :
    ∃ f, fetch_stock_data symbol info fin = (some f, info.longName.getD symbol) ∧
      f.quarters.length = min 10 fin.cols.length ∧
      f.quarters = (quarterNames fin).reverse ∧
      f.sales = (salesSeries fin).reverse := by
  have hqn := quarterNames_length fin
  have hsales : (salesSeries fin).length = min 10 fin.cols.length := by
    simp [salesSeries, rowVals_length fin "Total Revenue" hwf htr]
  have hop : (operatingProfitSeries fin).length = min 10 fin.cols.length := by
    unfold operatingProfitSeries
    by_cases hOI : fin.hasRow "Operating Income" = true
    · rw [if_pos hOI]
      simp [rowVals_length fin "Operating Income" hwf hOI]
    · rw [if_neg hOI]
      by_cases hTOE : fin.hasRow "Total Operating Expenses" = true
      · have hcond : (fin.hasRow "Total Revenue" && fin.hasRow "Total Operating Expenses")
            = true := by rw [htr, hTOE]; rfl
        rw [if_pos hcond, List.length_zipWith, rowVals_length fin "Total Revenue" hwf htr,
          rowVals_length fin "Total Operating Expenses" hwf hTOE, Nat.min_self]
      · have hcond : (fin.hasRow "Total Revenue" && fin.hasRow "Total Operating Expenses")
            = false := by
          cases hb : fin.hasRow "Total Operating Expenses" with
          | false => exact Bool.and_false _
          | true => exact absurd hb hTOE
        rw [if_neg (by rw [hcond]; exact Bool.false_ne_true), List.length_replicate]
        rcases hfb with h10 | ⟨hOPsrc, -, -⟩
        · exact (Nat.min_eq_left h10).symm
        · rcases hOPsrc with h | h
          · exact absurd h hOI
          · exact absurd h hTOE
  have hnp : (netProfitSeries fin).length = min 10 fin.cols.length := by
    unfold netProfitSeries
    by_cases hNI : fin.hasRow "Net Income" = true
    · rw [if_pos hNI]
      simp [rowVals_length fin "Net Income" hwf hNI]
    · rw [if_neg hNI, List.length_replicate]
      rcases hfb with h10 | ⟨-, hNI2, -⟩
      · exact (Nat.min_eq_left h10).symm
      · exact absurd hNI2 hNI
  have heps : (epsSeries info fin).length = min 10 fin.cols.length := by
    unfold epsSeries
    by_cases hBE : fin.hasRow "Basic EPS" = true
    · rw [if_pos hBE]
      exact rowVals_length fin "Basic EPS" hwf hBE
    · rw [if_neg hBE]
      split
      · rename_i sh hso
        split
        · rename_i hsh
          rw [List.length_map, hnp]
        · rename_i hsh
          rw [List.length_replicate]
          rcases hfb with h10 | ⟨-, -, hE⟩
          · exact (Nat.min_eq_left h10).symm
          · rcases hE with h | h
            · exact absurd h hBE
            · exfalso
              unfold sharesTruthy at h
              rw [hso] at h
              simp only [bne_iff_ne, ne_eq] at h
              exact hsh h
      · rename_i hso
        rw [List.length_replicate]
        rcases hfb with h10 | ⟨-, -, hE⟩
        · exact (Nat.min_eq_left h10).symm
        · rcases hE with h | h
          · exact absurd h hBE
          · exfalso
            unfold sharesTruthy at h
            rw [hso] at h
            exact Bool.false_ne_true h
  have hopm : (opmSeries fin).length = min 10 fin.cols.length := by
    unfold opmSeries
    rw [List.length_zipWith, hop, hsales, Nat.min_self]
  have hrows : fin.rows ≠ [] := by
    have htr2 := htr
    unfold Statement.hasRow at htr2
    obtain ⟨r, hr, -⟩ := List.any_eq_true.mp htr2
    intro hnil
    rw [hnil] at hr
    simp at hr
  have hne : ¬ fin.isEmpty = true := by
    unfold Statement.isEmpty
    simp [hc, hrows]
  refine ⟨Frame.reverse ⟨quarterNames fin, salesSeries fin, operatingProfitSeries fin,
    opmSeries fin, netProfitSeries fin, epsSeries info fin⟩, ?_, ?_, rfl, rfl⟩
  · unfold fetch_stock_data
    rw [if_neg hne, if_pos htr]
    unfold mkFrame
    rw [if_pos ⟨by rw [hsales, hqn], by rw [hop, hqn], by rw [hopm, hqn],
      by rw [hnp, hqn], by rw [heps, hqn]⟩]
  · simp [Frame.reverse, hqn]

/-- Witness for C1 at a concrete one-column statement holding every consumed
row: the series exists and has length min(10, 1) = 1 in reversed order. -/
theorem c1_witness :
    ∃ f, fetch_stock_data "RELIANCE.NS" infoName finFull = (some f, "Reliance Industries") ∧
      f.quarters.length = min 10 finFull.cols.length ∧
      f.quarters = (quarterNames finFull).reverse ∧
      f.sales = (salesSeries finFull).reverse := by
  have h := c1_series_length_oldest_first "RELIANCE.NS" infoName finFull
    (by unfold Statement.WF; decide) (by decide) (by decide)
    (Or.inr ⟨Or.inl (by decide), by decide, Or.inl (by decide)⟩)
  exact h

/-- pct_change preserves the series length. -/
theorem pctChange100_length (l : List ℚ) : (pctChange100 l).length = l.length := by
  cases l with
  | nil => rfl
  | cons x xs =>
    simp [pctChange100, List.length_zipWith]

/-- diff preserves the series length. -/
theorem diffSeries_length (l : List ℚ) : (diffSeries l).length = l.length := by
  cases l with
  | nil => rfl
  | cons x xs =>
    simp [diffSeries, List.length_zipWith]

/-- The leading pct_change entry is the NaN sentinel, also after rounding. -/
theorem pctChange100_head (l : List ℚ) :
    ((pctChange100 l).map GVal.round2).getD 0 GVal.undef = GVal.undef := by
  cases l <;> rfl

/-- The leading diff entry is the NaN sentinel, also after rounding. -/
theorem diffSeries_head (l : List ℚ) :
    ((diffSeries l).map GVal.round2).getD 0 GVal.undef = GVal.undef := by
  cases l <;> rfl

/-- The rounded pct_change entry at position i+1 is the rounded step of the
adjacent source pair (baseline at i, current at i+1). -/
theorem pctChange100_getD_succ (l : List ℚ) (i : ℕ) (hi : i + 1 < l.length) :
    ((pctChange100 l).map GVal.round2).getD (i + 1) GVal.undef =
      GVal.round2 (pctStep (l.getD i 0) (l.getD (i + 1) 0)) := by
  cases l with
  | nil => simp at hi
  | cons x xs =>
    have hx : i < xs.length := by simpa using hi
    have hx2 : i < (x :: xs).length := by simp; omega
    rw [show pctChange100 (x :: xs) = GVal.undef ::
        List.zipWith (fun cur prev => pctStep prev cur) xs (x :: xs) from rfl]
    simp only [List.map_cons, List.getD_cons_succ, List.getD_eq_getElem?_getD,
      List.getElem?_cons_succ, List.getElem?_map, List.getElem?_zipWith,
      List.getElem?_eq_getElem hx, List.getElem?_eq_getElem hx2,
      Option.map_some', Option.getD_some]

/-- The rounded diff entry at position i+1 is the rounded difference of the
adjacent source pair. -/
theorem diffSeries_getD_succ (l : List ℚ) (i : ℕ) (hi : i + 1 < l.length) :
    ((diffSeries l).map GVal.round2).getD (i + 1) GVal.undef =
      GVal.val (round2 (l.getD (i + 1) 0 - l.getD i 0)) := by
  cases l with
  | nil => simp at hi
  | cons x xs =>
    have hx : i < xs.length := by simpa using hi
    have hx2 : i < (x :: xs).length := by simp; omega
    rw [show diffSeries (x :: xs) = GVal.undef ::
        List.zipWith (fun cur prev => GVal.val (cur - prev)) xs (x :: xs) from rfl]
    simp only [List.map_cons, List.getD_cons_succ, List.getD_eq_getElem?_getD,
      List.getElem?_cons_succ, List.getElem?_map, List.getElem?_zipWith,
      List.getElem?_eq_getElem hx, List.getElem?_eq_getElem hx2,
      Option.map_some', Option.getD_some]
    rfl

/-- Rounding a finite growth entry rounds its payload. -/
theorem GVal.round2_val (q : ℚ) :
    GVal.round2 (GVal.val q) = GVal.val (StockApp.round2 q) := rfl

/-- On a nonzero baseline the rounded pct_change entry is the rounded percentage
change, in the (current - previous) / previous form of the specification. -/
theorem pctChange100_formula (l : List ℚ) (i : ℕ) (hi : i + 1 < l.length)
    (hprev : l.getD i 0 ≠ 0) :
    ((pctChange100 l).map GVal.round2).getD (i + 1) GVal.undef =
      GVal.val (round2 ((l.getD (i + 1) 0 - l.getD i 0) / l.getD i 0 * 100)) := by
  rw [pctChange100_getD_succ l i hi]
  have harg : (l.getD (i + 1) 0 / l.getD i 0 - 1) * 100 =
      (l.getD (i + 1) 0 - l.getD i 0) / l.getD i 0 * 100 := by
    rw [sub_div, div_self hprev]
  unfold pctStep
  rw [if_neg hprev, GVal.round2_val, harg]

/-- On a zero baseline the rounded pct_change entry is one of the non-finite
sentinels, hence in particular never a finite number and never 0. -/
theorem pctChange100_zero_baseline (l : List ℚ) (i : ℕ) (hi : i + 1 < l.length)
    (hprev : l.getD i 0 = 0) :
    (((pctChange100 l).map GVal.round2).getD (i + 1) GVal.undef).isSentinel = true := by
  rw [pctChange100_getD_succ l i hi, hprev]
  unfold pctStep
  rw [if_pos rfl]
  split
  · rfl
  · split <;> rfl

/-- A sentinel growth value is never a finite value, in particular never 0. -/
theorem isSentinel_ne_val (g : GVal) (h : g.isSentinel = true) (q : ℚ) :
    g ≠ GVal.val q := by
  cases g <;> simp_all [GVal.isSentinel]

/-- C7: per quarter-to-quarter transition the growth table holds the rounded
percentage change (current minus previous over previous, times 100) for Sales,
Operating Profit, Net Profit and EPS, and the rounded absolute difference for
OPM%; the first record of every growth column is the undefined sentinel; all
finite outputs pass through rounding to two decimals. -/
theorem c7_growth_formulas (f : Frame) :
    ((calculate_growth_metrics f).salesGrowth.getD 0 GVal.undef = GVal.undef ∧
     (calculate_growth_metrics f).operatingProfitGrowth.getD 0 GVal.undef = GVal.undef ∧
     (calculate_growth_metrics f).opmChange.getD 0 GVal.undef = GVal.undef ∧
     (calculate_growth_metrics f).netProfitGrowth.getD 0 GVal.undef = GVal.undef ∧
     (calculate_growth_metrics f).epsGrowth.getD 0 GVal.undef = GVal.undef) ∧
    (∀ i, i + 1 < f.sales.length → f.sales.getD i 0 ≠ 0 →
      (calculate_growth_metrics f).salesGrowth.getD (i + 1) GVal.undef =
        GVal.val (round2 ((f.sales.getD (i + 1) 0 - f.sales.getD i 0) /
          f.sales.getD i 0 * 100))) ∧
    (∀ i, i + 1 < f.operatingProfit.length → f.operatingProfit.getD i 0 ≠ 0 →
      (calculate_growth_metrics f).operatingProfitGrowth.getD (i + 1) GVal.undef =
        GVal.val (round2 ((f.operatingProfit.getD (i + 1) 0 - f.operatingProfit.getD i 0) /
          f.operatingProfit.getD i 0 * 100))) ∧
    (∀ i, i + 1 < f.netProfit.length → f.netProfit.getD i 0 ≠ 0 →
      (calculate_growth_metrics f).netProfitGrowth.getD (i + 1) GVal.undef =
        GVal.val (round2 ((f.netProfit.getD (i + 1) 0 - f.netProfit.getD i 0) /
          f.netProfit.getD i 0 * 100))) ∧
    (∀ i, i + 1 < f.eps.length → f.eps.getD i 0 ≠ 0 →
      (calculate_growth_metrics f).epsGrowth.getD (i + 1) GVal.undef =
        GVal.val (round2 ((f.eps.getD (i + 1) 0 - f.eps.getD i 0) /
          f.eps.getD i 0 * 100))) ∧
    (∀ i, i + 1 < f.opm.length →
      (calculate_growth_metrics f).opmChange.getD (i + 1) GVal.undef =
        GVal.val (round2 (f.opm.getD (i + 1) 0 - f.opm.getD i 0))) := by
  refine ⟨⟨pctChange100_head f.sales, pctChange100_head f.operatingProfit,
      diffSeries_head f.opm, pctChange100_head f.netProfit, pctChange100_head f.eps⟩,
    fun i hi hp => pctChange100_formula f.sales i hi hp,
    fun i hi hp => pctChange100_formula f.operatingProfit i hi hp,
    fun i hi hp => pctChange100_formula f.netProfit i hi hp,
    fun i hi hp => pctChange100_formula f.eps i hi hp,
    fun i hi => diffSeries_getD_succ f.opm i hi⟩

/-- Witness for C7 on the specification's worked example: Sales [100, 150, 120]
gives [sentinel, 50.00, -20.00] and OPM% [10, 12.5, 9] gives
[sentinel, 2.50, -3.50]. -/
theorem c7_witness :
    (calculate_growth_metrics exFrame).salesGrowth.getD 0 GVal.undef = GVal.undef ∧
    (calculate_growth_metrics exFrame).salesGrowth.getD 1 GVal.undef = GVal.val 50 ∧
    (calculate_growth_metrics exFrame).salesGrowth.getD 2 GVal.undef = GVal.val (-20) ∧
    (calculate_growth_metrics exFrame).opmChange.getD 1 GVal.undef = GVal.val (5/2) ∧
    (calculate_growth_metrics exFrame).opmChange.getD 2 GVal.undef = GVal.val (-7/2) ∧
    (calculate_growth_metrics exFrame).operatingProfitGrowth.getD 1 GVal.undef =
      GVal.val (-50) ∧
    (calculate_growth_metrics exFrame).netProfitGrowth.getD 1 GVal.undef = GVal.val 50 ∧
    (calculate_growth_metrics exFrame).epsGrowth.getD 1 GVal.undef = GVal.val 100 := by
  have h := c7_growth_formulas exFrame
  refine ⟨h.1.1, ?_, ?_, ?_, ?_, ?_, ?_, ?_⟩
  · rw [h.2.1 0 (by decide) (by norm_num [exFrame])]
    norm_num [exFrame, round2, roundHalfEven, Rat.mkRat_eq_divInt, Rat.divInt_eq_div]
  · rw [h.2.1 1 (by decide) (by norm_num [exFrame])]
    norm_num [exFrame, round2, roundHalfEven, Rat.mkRat_eq_divInt, Rat.divInt_eq_div]
  · rw [h.2.2.2.2.2 0 (by decide)]
    norm_num [exFrame, round2, roundHalfEven, Rat.mkRat_eq_divInt, Rat.divInt_eq_div]
  · rw [h.2.2.2.2.2 1 (by decide)]
    norm_num [exFrame, round2, roundHalfEven, Rat.mkRat_eq_divInt, Rat.divInt_eq_div]
  · rw [h.2.2.1 0 (by decide) (by norm_num [exFrame])]
    norm_num [exFrame, round2, roundHalfEven, Rat.mkRat_eq_divInt, Rat.divInt_eq_div]
  · rw [h.2.2.2.1 0 (by decide) (by norm_num [exFrame])]
    norm_num [exFrame, round2, roundHalfEven, Rat.mkRat_eq_divInt, Rat.divInt_eq_div]
  · rw [h.2.2.2.2.1 0 (by decide) (by norm_num [exFrame])]
    norm_num [exFrame, round2, roundHalfEven, Rat.mkRat_eq_divInt, Rat.divInt_eq_div]

/-- C8: the growth computation is total — every growth column has exactly one
entry per source entry — and whenever a previous-quarter value is 0 the
corresponding percentage-change entry is a non-finite sentinel, never a finite
number (in particular never coerced to 0). -/
theorem c8_growth_total_sentinel (f : Frame) :
    ((calculate_growth_metrics f).salesGrowth.length = f.sales.length ∧
     (calculate_growth_metrics f).operatingProfitGrowth.length = f.operatingProfit.length ∧
     (calculate_growth_metrics f).opmChange.length = f.opm.length ∧
     (calculate_growth_metrics f).netProfitGrowth.length = f.netProfit.length ∧
     (calculate_growth_metrics f).epsGrowth.length = f.eps.length) ∧
    (∀ i, i + 1 < f.sales.length → f.sales.getD i 0 = 0 →
      ((calculate_growth_metrics f).salesGrowth.getD (i + 1) GVal.undef).isSentinel = true ∧
      ∀ q : ℚ, (calculate_growth_metrics f).salesGrowth.getD (i + 1) GVal.undef ≠
        GVal.val q) ∧
    (∀ i, i + 1 < f.operatingProfit.length → f.operatingProfit.getD i 0 = 0 →
      ((calculate_growth_metrics f).operatingProfitGrowth.getD (i + 1) GVal.undef).isSentinel
        = true) ∧
    (∀ i, i + 1 < f.netProfit.length → f.netProfit.getD i 0 = 0 →
      ((calculate_growth_metrics f).netProfitGrowth.getD (i + 1) GVal.undef).isSentinel
        = true) ∧
    (∀ i, i + 1 < f.eps.length → f.eps.getD i 0 = 0 →
      ((calculate_growth_metrics f).epsGrowth.getD (i + 1) GVal.undef).isSentinel = true) := by
  refine ⟨⟨?_, ?_, ?_, ?_, ?_⟩, fun i hi hp => ?_, fun i hi hp => ?_,
    fun i hi hp => ?_, fun i hi hp => ?_⟩
  · simp [calculate_growth_metrics, pctChange100_length]
  · simp [calculate_growth_metrics, pctChange100_length]
  · simp [calculate_growth_metrics, diffSeries_length]
  · simp [calculate_growth_metrics, pctChange100_length]
  · simp [calculate_growth_metrics, pctChange100_length]
  · refine ⟨pctChange100_zero_baseline f.sales i hi hp, fun q => ?_⟩
    exact isSentinel_ne_val _ (pctChange100_zero_baseline f.sales i hi hp) q
  · exact pctChange100_zero_baseline f.operatingProfit i hi hp
  · exact pctChange100_zero_baseline f.netProfit i hi hp
  · exact pctChange100_zero_baseline f.eps i hi hp

/-- Witness for C8 on the specification's divide-by-zero example: Sales [0, 100]
gives [sentinel, positive infinity] and the second entry is a sentinel, not a
finite value. -/
theorem c8_witness :
    (calculate_growth_metrics exFrameZero).salesGrowth =
      [GVal.undef, GVal.posInf] ∧
    ((calculate_growth_metrics exFrameZero).salesGrowth.getD 1 GVal.undef).isSentinel
      = true ∧
    (∀ q : ℚ, (calculate_growth_metrics exFrameZero).salesGrowth.getD 1 GVal.undef ≠
      GVal.val q) ∧
    (calculate_growth_metrics exFrameZero).salesGrowth.length = exFrameZero.sales.length := by
  have h := c8_growth_total_sentinel exFrameZero
  have hz := h.2.1 0 (by decide) (by norm_num [exFrameZero])
  refine ⟨?_, hz.1, hz.2, h.1.1⟩
  simp [calculate_growth_metrics, exFrameZero, pctChange100, pctStep, GVal.round2]

end StockApp
